import Mathlib

/-!
Shallow embedding of the Teachable Machine inference server (src/server.js):
image preprocessing, the /predict request pipeline, the GET / status
endpoint, and the keep-alive scheduler.  Pure data flow is embedded as Lean
functions; the filesystem side effect of the pipeline (the multer temp file)
is threaded as an explicit file count; timers are embedded by their fire
times.  Machine floats are modelled by ℚ.
-/

/-- Decoded image: a height x width x channels pixel array, as produced by
tf.node.decodeImage.  Pixel samples are rationals (decode yields integers in
0..255); indices out of range read through the total function pix, which
concrete images default to 0. -/
structure Image where
  h : Nat
  w : Nat
  c : Nat
  pix : Nat → Nat → Nat → ℚ

/-- Four dimensional tensor, as produced by expandDims(0). -/
structure Tensor4 where
  d0 : Nat
  d1 : Nat
  d2 : Nat
  d3 : Nat
  pix : Nat → Nat → Nat → Nat → ℚ

/-- Lines 64-66 of server.js: tfImage.slice([0,0,0],[h,w,3]) — keep only the
first three channel planes (alpha truncation, no compositing). -/
def sliceRGB (img : Image) : Image where
  h := img.h
  w := img.w
  c := 3
  pix := fun y x ch => if ch < 3 then img.pix y x ch else 0

/-- Fractional source coordinate used by tf.image.resizeBilinear with
alignCorners = false and halfPixelCenters = false (the tfjs defaults):
output index times inSize / outSize. -/
def srcCoord (inSize outSize i : Nat) : ℚ := (i : ℚ) * (inSize : ℚ) / (outSize : ℚ)

/-- Bilinear interpolation cell of the tfjs CPU kernel: lerp the two top
corners and the two bottom corners along the row (weight fx), then lerp the
two results along the column (weight fy). -/
def bilerp (tl tr bl br fx fy : ℚ) : ℚ :=
  (tl + (tr - tl) * fx) + ((bl + (br - bl) * fx) - (tl + (tr - tl) * fx)) * fy

/-- Line 69: tf.image.resizeBilinear(tfImage, [224, 224]), following the tfjs
CPU kernel: the floor and (clamped) ceiling neighbours of the fractional
source coordinate are lerped along rows, then along columns. -/
def resizeBilinear (img : Image) (oh ow : Nat) : Image where
  h := oh
  w := ow
  c := img.c
  pix := fun y x ch =>
    let sy := srcCoord img.h oh y
    let sx := srcCoord img.w ow x
    let y0 := (⌊sy⌋).toNat
    let y1 := min (img.h - 1) (⌈sy⌉).toNat
    let x0 := (⌊sx⌋).toNat
    let x1 := min (img.w - 1) (⌈sx⌉).toNat
    bilerp (img.pix y0 x0 ch) (img.pix y0 x1 ch) (img.pix y1 x0 ch) (img.pix y1 x1 ch)
      (sx - (x0 : ℚ)) (sy - (y0 : ℚ))

/-- Line 72: resized.div(255.0). -/
def divScalar (img : Image) (s : ℚ) : Image where
  h := img.h
  w := img.w
  c := img.c
  pix := fun y x ch => img.pix y x ch / s

/-- Line 75: normalized.expandDims(0). -/
def expandDims0 (img : Image) : Tensor4 where
  d0 := 1
  d1 := img.h
  d2 := img.w
  d3 := img.c
  pix := fun _ y x ch => img.pix y x ch

/-- Lines 58-78: preprocessImage on the decode result — drop the alpha plane
when the image has four channels, bilinear-resize to 224x224, divide by 255,
prepend the batch dimension. -/
def preprocessImage (img : Image) : Tensor4 :=
  let tfImage := if img.c = 4 then sliceRGB img else img
  let resized := resizeBilinear tfImage 224 224
  let normalized := divScalar resized 255
  expandDims0 normalized

/-- Prediction record sent back to the client. -/
structure Prediction where
  cls : String
  probability : ℚ
deriving DecidableEq, Repr

/-- JS falsy-or on a possibly-undefined string, v || fallback: undefined
(none) and the empty string are the falsy cases. -/
def jsOr (v : Option String) (fallback : String) : String :=
  match v with
  | none => fallback
  | some s => if s = "" then fallback else s

/-- Line 109: classNames[index] || "class" + (index + 1). -/
def classLabel (classNames : List String) (i : Nat) : String :=
  jsOr (classNames.get? i) ("class" ++ toString (i + 1))

/-- Lines 107-112: Array.from(results).map((probability, index) => ...). -/
def resultArray (classNames : List String) (results : List ℚ) : List Prediction :=
  results.enum.map fun p => ⟨classLabel classNames p.1, p.2⟩

/-- Comparator of line 115, (a, b) => b.probability - a.probability, read as
the le switch of a stable sort: a may stay before b iff the comparator is
nonpositive there. -/
def predLE (a b : Prediction) : Bool := decide (b.probability ≤ a.probability)

/-- Line 115: resultArray.sort((a, b) => b.probability - a.probability).
Array.prototype.sort is stable (ES2019, and V8 complies), so it is modelled
by the stable List.mergeSort. -/
def rank (classNames : List String) (results : List ℚ) : List Prediction :=
  (resultArray classNames results).mergeSort predLE

/-- The sort of line 115 carried out on position-tagged entries; by
List.mergeSort_enum its projection is rank, which makes the tie-break by
original array position visible in the sorted output. -/
def sortedResults (classNames : List String) (results : List ℚ) : List (Nat × Prediction) :=
  ((resultArray classNames results).enum).mergeSort (List.enumLE predLE)

/-- Outcome of a /predict request, as serialised by res.status / res.json.
In the success payload of lines 121-125, topPrediction is resultArray[0],
which is undefined — an absent field — when the array is empty, hence an
Option. -/
inductive Response where
  | badRequest (error : String)
  | serverError (error : String) (details : Option String)
  | ok (predictions : List Prediction) (topPrediction : Option Prediction)
deriving DecidableEq, Repr

/-- Ambient state the /predict handler reads: the uploaded file's bytes
(fs.readFileSync), the decoder (tf.node.decodeImage, none models a decode
throw), the loaded model (none while loading or after a failed load, line
32), and the label set of lines 98-105.  The model maps the preprocessed
tensor to a score vector; none models a throw inside model.predict. -/
structure World where
  readFile : String → List Nat
  decodeImg : List Nat → Option Image
  model : Option (Tensor4 → Option (List ℚ))
  labels : List String

/-- Lines 81-131: the /predict handler.  file is the multer temp file path
(none when the image field is missing); fsCount is the number of files in the
uploads directory at handler entry, the freshly uploaded file included when
file is present.  Returns the response and the file count at exit.
fs.unlinkSync(req.file.path) (line 118) is the only statement that removes
the file, and it sits on the success path inside the try block; the catch
block (lines 127-130) and the early returns do not touch the file. -/
def predictHandler (w : World) (file : Option String) (fsCount : Nat) : Response × Nat :=
  match file with
  | none => (Response.badRequest "이미지가 없습니다.", fsCount)
  | some path =>
    match w.model with
    | none => (Response.serverError "모델이 로드되지 않았습니다." none, fsCount)
    | some modelPredict =>
      match w.decodeImg (w.readFile path) with
      | none => (Response.serverError "추론 중 오류가 발생했습니다." (some "decode"), fsCount)
      | some img =>
        match modelPredict (preprocessImage img) with
        | none => (Response.serverError "추론 중 오류가 발생했습니다." (some "predict"), fsCount)
        | some results =>
          let ranked := rank w.labels results
          (Response.ok ranked ranked.head?, fsCount - 1)

/-- Body of the GET / status endpoint. -/
structure StatusBody where
  status : String
  message : String
deriving DecidableEq, Repr

/-- Lines 134-136: the GET / handler — a constant 200 response that reads no
server state at all. -/
def rootHandler (_w : World) : Nat × StatusBody :=
  (200, { status := "online", message := "Teachable Machine 추론 서버가 실행 중입니다." })

/-- Line 144: 14 * 60 * 1000 ms between periodic pings. -/
def pingIntervalMs : Nat := 14 * 60 * 1000

/-- JS String.prototype.includes via splitOn: s contains sub iff splitting s
on sub yields more than one piece. -/
def strContains (s sub : String) : Bool := (s.splitOn sub).length > 1

/-- What one pingServer invocation observes: the probe is skipped for a local
URL, otherwise the GET either reports a status code or a network error. -/
inductive PingOutcome where
  | skippedLocal
  | responded (status : Nat)
  | netError
deriving DecidableEq, Repr

/-- Lines 146-167: pingServer.  net k is the network's answer to probe k
(none = error event); the error is only logged by the req.on error callback,
so the outcome feeds back into nothing. -/
def pingServer (serverUrl : String) (net : Nat → Option Nat) (k : Nat) : PingOutcome :=
  if strContains serverUrl "localhost" || strContains serverUrl "127.0.0.1" then
    PingOutcome.skippedLocal
  else
    match net k with
    | some st => PingOutcome.responded st
    | none => PingOutcome.netError

/-- setTimeout(cb, d) registered at time t fires once, at t + d. -/
def timeoutFire (t d : Nat) : Nat := t + d

/-- setInterval(cb, p) registered at time t fires for the k-th time (k
counted from 0) at t + (k+1) * p. -/
def intervalFire (t p k : Nat) : Nat := t + (k + 1) * p

/-- Lines 173-178: the 60000 ms timeout is registered at process start (time
0); its callback runs pingServer (probe 0) and registers the 14-minute
interval, whose k-th fire is probe k+1. -/
def probeTime : Nat → Nat
  | 0 => timeoutFire 0 60000
  | k + 1 => intervalFire (timeoutFire 0 60000) pingIntervalMs k

/-- Number of timers the keep-alive block of lines 170-179 creates: the 60 s
timeout plus the interval it registers when RENDER is set, none otherwise. -/
def timersCreated (renderSet : Bool) : Nat := if renderSet then 2 else 0

/-- Keep-alive trace: fire time and outcome of probe k, or none when the
RENDER marker is unset (line 170) and the whole block is skipped.  The
schedule does not consult net: a network error leaves both timers alive. -/
def keepAliveTrace (renderSet : Bool) (serverUrl : String) (net : Nat → Option Nat)
    (k : Nat) : Option (Nat × PingOutcome) :=
  if renderSet then some (probeTime k, pingServer serverUrl net k) else none

/-- A 1x1 RGB test image with every sample equal to 100. -/
def constImg : Image := ⟨1, 1, 3, fun _ _ _ => 100⟩

/-- A 2x2 two-channel test image (grayscale plus alpha), every sample 10. -/
def twoChanImg : Image := ⟨2, 2, 2, fun _ _ _ => 10⟩

/-- World whose model is loaded and returns the fixed scores [1/2, 1/4]. -/
def okWorld : World :=
  ⟨fun _ => [0], fun _ => some constImg, some (fun _ => some [1/2, 1/4]), ["cat", "dog"]⟩

/-- World whose model never loaded (line 32's model is still undefined). -/
def noModelWorld : World := ⟨fun _ => [0], fun _ => some constImg, none, []⟩

/-- World whose decoder throws on the uploaded bytes. -/
def badDecodeWorld : World := ⟨fun _ => [0], fun _ => none, some (fun _ => some [1]), []⟩

/-- World whose model returns an empty score vector. -/
def emptyScoresWorld : World := ⟨fun _ => [0], fun _ => some constImg, some (fun _ => some []), []⟩

/-! Helper lemmas about interpolation bounds. -/

/-- Linear interpolation with a weight in [0, 1] stays inside any interval
that contains both endpoints. -/
theorem lerp_bounds {t a b lo hi : ℚ} (ht0 : 0 ≤ t) (ht1 : t ≤ 1)
    (ha0 : lo ≤ a) (ha1 : a ≤ hi) (hb0 : lo ≤ b) (hb1 : b ≤ hi) :
    lo ≤ a + (b - a) * t ∧ a + (b - a) * t ≤ hi := by
  constructor <;> nlinarith

/-- Bilinear interpolation with weights in [0, 1] stays inside any interval
that contains the four corners. -/
theorem bilerp_bounds {tl tr bl br fx fy lo hi : ℚ}
    (hfx : 0 ≤ fx ∧ fx ≤ 1) (hfy : 0 ≤ fy ∧ fy ≤ 1)
    (h1 : lo ≤ tl ∧ tl ≤ hi) (h2 : lo ≤ tr ∧ tr ≤ hi)
    (h3 : lo ≤ bl ∧ bl ≤ hi) (h4 : lo ≤ br ∧ br ≤ hi) :
    lo ≤ bilerp tl tr bl br fx fy ∧ bilerp tl tr bl br fx fy ≤ hi := by
  have htop := lerp_bounds hfx.1 hfx.2 h1.1 h1.2 h2.1 h2.2
  have hbot := lerp_bounds hfx.1 hfx.2 h3.1 h3.2 h4.1 h4.2
  exact lerp_bounds hfy.1 hfy.2 htop.1 htop.2 hbot.1 hbot.2

/-- Source coordinates of the bilinear resize are nonnegative. -/
theorem srcCoord_nonneg (a b i : Nat) : 0 ≤ srcCoord a b i := by
  unfold srcCoord
  positivity

/-- Fractional lerp weight of the resize: subtracting the floor (as a Nat) of
a nonnegative rational leaves a value in [0, 1]. -/
theorem sub_toNat_floor_bounds (q : ℚ) (hq : 0 ≤ q) :
    0 ≤ q - ((⌊q⌋).toNat : ℚ) ∧ q - ((⌊q⌋).toNat : ℚ) ≤ 1 := by
  have h0 : (0 : ℤ) ≤ ⌊q⌋ := Int.floor_nonneg.mpr hq
  have hcast : (((⌊q⌋).toNat : ℚ)) = ((⌊q⌋ : ℤ) : ℚ) := by
    rw [← Int.cast_natCast, Int.toNat_of_nonneg h0]
  have hf : q - ((⌊q⌋ : ℤ) : ℚ) = Int.fract q := Int.self_sub_floor q
  rw [hcast, hf]
  exact ⟨Int.fract_nonneg q, (Int.fract_lt_one q).le⟩

/-- Alpha truncation keeps samples inside [0, hi] (dropped channels read 0). -/
theorem sliceRGB_pix_bounds (img : Image) (hi : ℚ) (h0 : (0 : ℚ) ≤ hi)
    (hb : ∀ y x ch, 0 ≤ img.pix y x ch ∧ img.pix y x ch ≤ hi) (y x ch : Nat) :
    0 ≤ (sliceRGB img).pix y x ch ∧ (sliceRGB img).pix y x ch ≤ hi := by
  dsimp [sliceRGB]
  split
  · exact hb y x ch
  · exact ⟨le_refl 0, h0⟩

/-- Bilinear resize preserves pixel bounds: every output sample is a convex
combination of four input samples. -/
theorem resizeBilinear_pix_bounds (img : Image) (oh ow : Nat) {lo hi : ℚ}
    (hb : ∀ y x ch, lo ≤ img.pix y x ch ∧ img.pix y x ch ≤ hi) (y x ch : Nat) :
    lo ≤ (resizeBilinear img oh ow).pix y x ch ∧
      (resizeBilinear img oh ow).pix y x ch ≤ hi := by
  have hfy := sub_toNat_floor_bounds (srcCoord img.h oh y) (srcCoord_nonneg img.h oh y)
  have hfx := sub_toNat_floor_bounds (srcCoord img.w ow x) (srcCoord_nonneg img.w ow x)
  exact bilerp_bounds hfx hfy (hb _ _ _) (hb _ _ _) (hb _ _ _) (hb _ _ _)

/-- C2: for every decoded image with 3 or 4 channels and 8-bit samples,
preprocessImage returns a [1, 224, 224, 3] tensor with all values in [0, 1];
a 4-channel image is handled by truncating to its first 3 channel planes, and
the pipeline is exactly alpha-drop, then bilinear resize to 224x224, then
division by 255, then batch-dimension prepend, in that order. -/
theorem preprocess_spec (img : Image)
    (hc : img.c = 3 ∨ img.c = 4)
    (hb : ∀ y x ch, 0 ≤ img.pix y x ch ∧ img.pix y x ch ≤ 255) :
    ((preprocessImage img).d0 = 1 ∧ (preprocessImage img).d1 = 224 ∧
      (preprocessImage img).d2 = 224 ∧ (preprocessImage img).d3 = 3) ∧
    (∀ b y x ch, 0 ≤ (preprocessImage img).pix b y x ch ∧
      (preprocessImage img).pix b y x ch ≤ 1) ∧
    (img.c = 4 → preprocessImage img = preprocessImage (sliceRGB img)) ∧
    preprocessImage img =
      expandDims0
        (divScalar (resizeBilinear (if img.c = 4 then sliceRGB img else img) 224 224) 255) := by
  refine ⟨⟨rfl, rfl, rfl, ?_⟩, ?_, ?_, rfl⟩
  · rcases hc with h | h <;>
      simp [preprocessImage, expandDims0, divScalar, resizeBilinear, sliceRGB, h]
  · intro b y x ch
    have htf : ∀ y' x' ch',
        0 ≤ (if img.c = 4 then sliceRGB img else img).pix y' x' ch' ∧
          (if img.c = 4 then sliceRGB img else img).pix y' x' ch' ≤ 255 := by
      intro y' x' ch'
      by_cases h : img.c = 4
      · rw [if_pos h]
        exact sliceRGB_pix_bounds img 255 (by norm_num) hb y' x' ch'
      · rw [if_neg h]
        exact hb y' x' ch'
    have hr := resizeBilinear_pix_bounds (if img.c = 4 then sliceRGB img else img) 224 224 htf y x ch
    have hpix : (preprocessImage img).pix b y x ch =
        (resizeBilinear (if img.c = 4 then sliceRGB img else img) 224 224).pix y x ch / 255 := rfl
    rw [hpix]
    constructor
    · exact div_nonneg hr.1 (by norm_num)
    · rw [div_le_one (by norm_num)]
      exact hr.2
  · intro hc4
    simp [preprocessImage, sliceRGB, hc4]

/-- Witness for preprocess_spec at the concrete 1x1 RGB image constImg. -/
theorem preprocess_spec_witness :
    ((constImg.c = 3 ∨ constImg.c = 4) ∧
      (∀ y x ch, 0 ≤ constImg.pix y x ch ∧ constImg.pix y x ch ≤ 255)) ∧
    (((preprocessImage constImg).d0 = 1 ∧ (preprocessImage constImg).d1 = 224 ∧
      (preprocessImage constImg).d2 = 224 ∧ (preprocessImage constImg).d3 = 3) ∧
    (∀ b y x ch, 0 ≤ (preprocessImage constImg).pix b y x ch ∧
      (preprocessImage constImg).pix b y x ch ≤ 1) ∧
    (constImg.c = 4 → preprocessImage constImg = preprocessImage (sliceRGB constImg)) ∧
    preprocessImage constImg =
      expandDims0
        (divScalar (resizeBilinear (if constImg.c = 4 then sliceRGB constImg else constImg) 224 224)
          255)) :=
  ⟨⟨Or.inl rfl, fun _ _ _ => ⟨show (0 : ℚ) ≤ 100 by decide, show (100 : ℚ) ≤ 255 by decide⟩⟩,
    preprocess_spec constImg (Or.inl rfl)
      (fun _ _ _ => ⟨show (0 : ℚ) ≤ 100 by decide, show (100 : ℚ) ≤ 255 by decide⟩)⟩

/-- C3 counterexample: on a decoded 2-channel image preprocessImage raises no
error at all — it returns a [1, 224, 224, 2] tensor, since the code checks
only for 4 channels and has no UnsupportedChannelLayout failure. -/
theorem preprocess_twoChannel_returns_tensor :
    (preprocessImage twoChanImg).d0 = 1 ∧ (preprocessImage twoChanImg).d1 = 224 ∧
      (preprocessImage twoChanImg).d2 = 224 ∧ (preprocessImage twoChanImg).d3 = 2 :=
  ⟨rfl, rfl, rfl, rfl⟩

/-- C3 amended: preprocessImage performs no channel-count validation — every
decoded image, whatever its channel count, yields a [1, 224, 224, c'] tensor,
where c' is 3 for 4-channel input and the unchanged channel count otherwise. -/
theorem preprocess_no_channel_validation (img : Image) :
    (preprocessImage img).d0 = 1 ∧ (preprocessImage img).d1 = 224 ∧
      (preprocessImage img).d2 = 224 ∧
      (preprocessImage img).d3 = (if img.c = 4 then 3 else img.c) := by
  refine ⟨rfl, rfl, rfl, ?_⟩
  by_cases h : img.c = 4 <;>
    simp [preprocessImage, expandDims0, divScalar, resizeBilinear, sliceRGB, h]

/-- C1: cleanup evidence.  On the success path the handler deletes the temp
file (entry count 1 drops to 0), but on the model-not-loaded early return and
on a preprocessing (decode) failure it responds with the 500 body while the
count stays 1 — the upload leaks on every non-success exit, violating the
net-zero resource law the spec states. -/
theorem predict_cleanup_paths :
    (predictHandler okWorld (some "up.png") 1).2 = 0 ∧
      (predictHandler noModelWorld (some "up.png") 1).2 = 1 ∧
      (predictHandler badDecodeWorld (some "up.png") 1).2 = 1 ∧
      (predictHandler noModelWorld (some "up.png") 1).1 =
        Response.serverError "모델이 로드되지 않았습니다." none :=
  ⟨rfl, rfl, rfl, rfl⟩

/-- C4 counterexample: with the model returning an empty score vector the
handler answers 200 success with an empty prediction list and an absent
topPrediction (resultArray[0] is undefined) — not an EmptyScoreVector error. -/
theorem empty_scores_counterexample :
    predictHandler emptyScoresWorld (some "up.png") 1 = (Response.ok [] none, 0) := by
  simp [predictHandler, emptyScoresWorld, rank, resultArray]

/-- C4 amended: whenever the model is loaded, decode succeeds and predict
returns the empty score vector, the handler deletes the temp file and responds
success with an empty predictions list and no topPrediction field; there is no
EmptyScoreVector error and no crash. -/
theorem empty_scores_amended (w : World) (p : String) (fs : Nat)
    (mp : Tensor4 → Option (List ℚ)) (img : Image)
    (hm : w.model = some mp)
    (hd : w.decodeImg (w.readFile p) = some img)
    (hp : mp (preprocessImage img) = some []) :
    predictHandler w (some p) fs = (Response.ok [] none, fs - 1) := by
  simp [predictHandler, hm, hd, hp, rank, resultArray]

/-- Witness for empty_scores_amended at the concrete emptyScoresWorld. -/
theorem empty_scores_amended_witness :
    (emptyScoresWorld.model = some (fun _ => some []) ∧
      emptyScoresWorld.decodeImg (emptyScoresWorld.readFile "up.png") = some constImg ∧
      (fun _ : Tensor4 => some ([] : List ℚ)) (preprocessImage constImg) = some []) ∧
    predictHandler emptyScoresWorld (some "up.png") 1 = (Response.ok [] none, 1 - 1) :=
  ⟨⟨rfl, rfl, rfl⟩, empty_scores_amended emptyScoresWorld "up.png" 1 _ constImg rfl rfl rfl⟩

/-- C10: the GET / status endpoint returns the same constant 200 body in every
process state — model loaded, failed to load, or still loading. -/
theorem rootHandler_constant (w w' : World) :
    rootHandler w = rootHandler w' ∧
      rootHandler w =
        (200, { status := "online", message := "Teachable Machine 추론 서버가 실행 중입니다." }) :=
  ⟨rfl, rfl⟩

/-- C7: keep-alive scheduling — without the RENDER marker no timer exists and
no probe ever fires; with it, probe 0 fires 60000 ms after process start and
consecutive probes are exactly pingIntervalMs = 14 minutes apart; and the fire
schedule is independent of which probes hit network errors. -/
theorem keepAlive_spec (url : String) (net net' : Nat → Option Nat) :
    (timersCreated false = 0 ∧ ∀ k, keepAliveTrace false url net k = none) ∧
    ((keepAliveTrace true url net 0).map Prod.fst = some 60000 ∧
      ∀ k, probeTime (k + 1) = probeTime k + pingIntervalMs) ∧
    (∀ r k, (keepAliveTrace r url net k).map Prod.fst =
      (keepAliveTrace r url net' k).map Prod.fst) := by
  refine ⟨⟨rfl, fun k => rfl⟩, ⟨rfl, fun k => ?_⟩, fun r k => ?_⟩
  · cases k with
    | zero => simp [probeTime, timeoutFire, intervalFire, pingIntervalMs]
    | succ n =>
      simp only [probeTime, timeoutFire, intervalFire, pingIntervalMs]
      omega
  · cases r <;> simp [keepAliveTrace]

/-- C8: the /predict pipeline is deterministic in the uploaded bytes — with a
fixed world (model, decoder, labels), two requests whose temp files hold the
same bytes receive identical response bodies. -/
theorem pipeline_deterministic (w : World) (p1 p2 : String) (fs1 fs2 : Nat)
    (hbytes : w.readFile p1 = w.readFile p2) :
    (predictHandler w (some p1) fs1).1 = (predictHandler w (some p2) fs2).1 := by
  cases hm : w.model with
  | none => simp [predictHandler, hm]
  | some mp =>
    cases hd : w.decodeImg (w.readFile p2) with
    | none => simp [predictHandler, hm, hbytes, hd]
    | some img =>
      cases hp : mp (preprocessImage img) with
      | none => simp [predictHandler, hm, hbytes, hd, hp]
      | some results => simp [predictHandler, hm, hbytes, hd, hp]

/-- Witness for pipeline_deterministic: two distinct upload paths carrying the
same bytes in okWorld. -/
theorem pipeline_deterministic_witness :
    okWorld.readFile "a.png" = okWorld.readFile "b.png" ∧
      (predictHandler okWorld (some "a.png") 1).1 = (predictHandler okWorld (some "b.png") 7).1 :=
  ⟨rfl, pipeline_deterministic okWorld "a.png" "b.png" 1 7 rfl⟩

/-- Comparator of line 115 is transitive as a le switch. -/
theorem predLE_trans (a b c : Prediction) : predLE a b → predLE b c → predLE a c := by
  simp only [predLE, decide_eq_true_eq]
  exact fun h1 h2 => le_trans h2 h1

/-- Comparator of line 115 is total as a le switch. -/
theorem predLE_total (a b : Prediction) : predLE a b || predLE b a := by
  simp only [predLE, Bool.or_eq_true, decide_eq_true_eq]
  exact le_total b.probability a.probability

/-- Reading off the position-tagged comparator: it means descending
probability with ties broken by ascending original position. -/
theorem enumLE_predLE_elim {a b : Nat × Prediction} (h : List.enumLE predLE a b = true) :
    b.2.probability ≤ a.2.probability ∧ (a.2.probability = b.2.probability → a.1 ≤ b.1) := by
  simp only [List.enumLE, predLE] at h
  by_cases h1 : b.2.probability ≤ a.2.probability
  · by_cases h2 : a.2.probability ≤ b.2.probability
    · simp [h1, h2] at h
      exact ⟨h1, fun _ => h⟩
    · exact ⟨h1, fun heq => absurd (le_of_eq heq) h2⟩
  · simp [h1] at h

/-- C5: rank returns exactly as many predictions as there are scores — a
permutation of the zipped result array — sorted descending by probability
with equal probabilities ordered by ascending original score index (visible
on the position-tagged sort, whose projection is rank); and every success
response's topPrediction is the head of its predictions list. -/
theorem rank_spec (labels : List String) (scores : List ℚ) (L : Nat)
    (_hlab : labels.length = L) (hsc : scores.length = L) :
    (rank labels scores).length = L ∧
    List.Perm (rank labels scores) (resultArray labels scores) ∧
    (sortedResults labels scores).map Prod.snd = rank labels scores ∧
    List.Pairwise
      (fun a b => b.2.probability ≤ a.2.probability ∧
        (a.2.probability = b.2.probability → a.1 ≤ b.1))
      (sortedResults labels scores) ∧
    ∀ (w : World) (p : String) (fs : Nat) (preds : List Prediction) (t : Option Prediction),
      (predictHandler w (some p) fs).1 = Response.ok preds t → t = preds.head? := by
  refine ⟨?_, ?_, ?_, ?_, ?_⟩
  · simp [rank, resultArray, hsc]
  · exact List.mergeSort_perm _ _
  · exact List.mergeSort_enum
  · have hs := List.sorted_mergeSort
      (List.enumLE_trans fun x y z => predLE_trans x y z)
      (List.enumLE_total fun x y => predLE_total x y)
      ((resultArray labels scores).enum)
    exact hs.imp fun h => enumLE_predLE_elim h
  · intro w p fs preds t h
    cases hm : w.model with
    | none => simp [predictHandler, hm] at h
    | some mp =>
      cases hd : w.decodeImg (w.readFile p) with
      | none => simp [predictHandler, hm, hd] at h
      | some img =>
        cases hp : mp (preprocessImage img) with
        | none => simp [predictHandler, hm, hd, hp] at h
        | some results =>
          simp only [predictHandler, hm, hd, hp] at h
          rw [Response.ok.injEq] at h
          rw [← h.2, h.1]

/-- Witness for rank_spec on two labels and two scores. -/
theorem rank_spec_witness :
    ((["cat", "dog"] : List String).length = 2 ∧ ([(1 : ℚ) / 2, 1 / 4] : List ℚ).length = 2) ∧
    ((rank ["cat", "dog"] [(1 : ℚ) / 2, 1 / 4]).length = 2 ∧
      List.Perm (rank ["cat", "dog"] [(1 : ℚ) / 2, 1 / 4])
        (resultArray ["cat", "dog"] [(1 : ℚ) / 2, 1 / 4]) ∧
      (sortedResults ["cat", "dog"] [(1 : ℚ) / 2, 1 / 4]).map Prod.snd =
        rank ["cat", "dog"] [(1 : ℚ) / 2, 1 / 4] ∧
      List.Pairwise
        (fun a b => b.2.probability ≤ a.2.probability ∧
          (a.2.probability = b.2.probability → a.1 ≤ b.1))
        (sortedResults ["cat", "dog"] [(1 : ℚ) / 2, 1 / 4]) ∧
      ∀ (w : World) (p : String) (fs : Nat) (preds : List Prediction) (t : Option Prediction),
        (predictHandler w (some p) fs).1 = Response.ok preds t → t = preds.head?) :=
  ⟨⟨rfl, rfl⟩, rank_spec ["cat", "dog"] [(1 : ℚ) / 2, 1 / 4] 2 rfl rfl⟩

/-- C6 counterexample: index 0 is a valid index into the label set consisting
of one empty string, yet the class name paired with score 0 is the
synthesized class1, not the stored label — line 109 tests truthiness, not
bounds. -/
theorem classLabel_truthy_counterexample :
    0 < ([""] : List String).length ∧
      classLabel [""] 0 = "class1" ∧
      ([""] : List String).getD 0 "class1" = "" ∧
      classLabel [""] 0 ≠ ([""] : List String).getD 0 "class1" :=
  ⟨by decide, by decide, by decide, by decide⟩

/-- C6 amended: the class name paired with the score at index i is labels[i]
when i is in range and the stored label is truthy (non-empty); otherwise —
out of range, or an in-range falsy (empty) label — it is the synthesized
name class(i+1). -/
theorem classLabel_characterization (labels : List String) (i : Nat) :
    classLabel labels i =
      if i < labels.length then
        (if labels.getD i "" = "" then "class" ++ toString (i + 1) else labels.getD i "")
      else "class" ++ toString (i + 1) := by
  unfold classLabel jsOr
  cases h : labels.get? i with
  | none =>
    have hlen : labels.length ≤ i := List.get?_eq_none.mp h
    rw [if_neg (Nat.not_lt.mpr hlen)]
  | some s =>
    have hlt : i < labels.length := by
      rcases List.get?_eq_some.mp h with ⟨hh, _⟩
      exact hh
    have hgd : labels.getD i "" = s := by
      rw [List.getD_eq_get?, h]
      rfl
    rw [if_pos hlt, hgd]

/-- C9: the fallback test of line 109 is truthiness — an in-range label that
is the empty string is replaced by the synthesized class(i+1) name. -/
theorem classLabel_falsy_fallback (labels : List String) (i : Nat)
    (h1 : i < labels.length) (h2 : labels.getD i "!" = "") :
    classLabel labels i = "class" ++ toString (i + 1) := by
  have hget : labels.get? i = some "" := by
    rw [List.getD_eq_get?, List.get?_eq_get h1] at h2
    simp only [Option.getD_some] at h2
    rw [List.get?_eq_get h1, h2]
  unfold classLabel jsOr
  rw [hget]
  rfl

/-- Witness for classLabel_falsy_fallback at the label set of one empty
string. -/
theorem classLabel_falsy_fallback_witness :
    0 < ([""] : List String).length ∧ ([""] : List String).getD 0 "!" = "" ∧
      classLabel [""] 0 = "class" ++ toString (0 + 1) :=
  ⟨by decide, by decide, classLabel_falsy_fallback [""] 0 (by decide) (by decide)⟩
